import Mathlib

/-!
Shallow embedding of the autonomous-dev-team orchestrator, covering the code
reached by the frozen claims: the anchored-replacement editor
(src/workers/code_worker.py), the fix-session store (src/mastermind/session.py),
the issue parser (src/mastermind/issue_parser.py), the validation matcher
(src/workers/test_worker.py), the learning store query
(src/safety/learning_tracker.py), the CI aggregation
(src/workers/pr_monitor_worker.py), the cost tracker
(src/safety/cost_tracker.py), and the strategy/approval logic
(src/mastermind/mastermind.py).

Python strings are modelled as lists of characters (PyStr).  Time stamps are
naturals, floats are rationals.  Filesystem reads and writes are modelled as an
association list from path to content; a write is assumed to succeed.
-/

/-- Python string, modelled as a list of characters. -/
abbrev PyStr := List Char

/-- Python str.isspace characters used by split/strip (space, tab, newline,
carriage return, vertical tab, form feed). -/
def isSpaceChar (c : Char) : Bool :=
  c = ' ' || c = '\t' || c = '\n' || c = '\r' || c = Char.ofNat 11 || c = Char.ofNat 12

/-- Whether the first list is an initial segment of the second. -/
def leadsWith : PyStr → PyStr → Bool
  | [], _ => true
  | _ :: _, [] => false
  | p :: ps, c :: cs => p = c && leadsWith ps cs

/-- Index of the leftmost occurrence of pat in s (Python str.find, as Option). -/
def findSub (s pat : PyStr) : Option Nat :=
  if leadsWith pat s then some 0
  else
    match s with
    | [] => none
    | _ :: t => (findSub t pat).map (· + 1)

/-- Python `pat in s` substring test. -/
def containsSub (s pat : PyStr) : Bool :=
  (findSub s pat).isSome

/-- Fuelled helper for countOcc; the fuel is always sufficient because each
step consumes at least one character when the pattern is non-empty. -/
def countOccAux : Nat → PyStr → PyStr → Nat
  | 0, _, _ => 0
  | fuel + 1, s, pat =>
    match findSub s pat with
    | none => 0
    | some i => 1 + countOccAux fuel (s.drop (i + pat.length)) pat

/-- Python str.count: number of non-overlapping occurrences, left to right;
an empty pattern counts len + 1 times, as in Python. -/
def countOcc (s pat : PyStr) : Nat :=
  if pat = [] then s.length + 1 else countOccAux (s.length + 1) s pat

/-- Python str.replace with count = 1: replace the leftmost occurrence. -/
def replaceFirst (s pat rep : PyStr) : PyStr :=
  match findSub s pat with
  | none => s
  | some i => s.take i ++ rep ++ s.drop (i + pat.length)

/-- Python s.split with a newline separator: keeps empty pieces. -/
def splitNl : PyStr → List PyStr
  | [] => [[]]
  | c :: t =>
    match splitNl t with
    | [] => [[]]
    | h :: r => if c = '\n' then [] :: h :: r else (c :: h) :: r

/-- Python newline.join. -/
def joinNl : List PyStr → PyStr
  | [] => []
  | [x] => x
  | x :: y :: rest => x ++ '\n' :: joinNl (y :: rest)

/-- Python space.join. -/
def joinSpace : List PyStr → PyStr
  | [] => []
  | [x] => x
  | x :: y :: rest => x ++ ' ' :: joinSpace (y :: rest)

/-- Python s.split() with no argument: split on runs of whitespace, dropping
empty tokens. -/
def pySplitWs : PyStr → List PyStr
  | [] => []
  | c :: t =>
    if isSpaceChar c then pySplitWs t
    else
      match t with
      | [] => [[c]]
      | d :: _ =>
        if isSpaceChar d then [c] :: pySplitWs t
        else
          match pySplitWs t with
          | [] => [[c]]
          | h :: r => (c :: h) :: r

/-- Whitespace normalisation used by the editor: space.join(s.split()). -/
def wsNormalize (s : PyStr) : PyStr :=
  joinSpace (pySplitWs s)

/-- Python str.strip(): drop whitespace from both ends. -/
def pyStrip (s : PyStr) : PyStr :=
  ((s.dropWhile isSpaceChar).reverse.dropWhile isSpaceChar).reverse

/-- Lower-case every character (Python str.lower restricted to ASCII). -/
def toLowerL (s : PyStr) : PyStr :=
  s.map Char.toLower

/-- Upper-case every character (Python str.upper restricted to ASCII). -/
def toUpperL (s : PyStr) : PyStr :=
  s.map Char.toUpper

/-- Length of the common run of equal characters at the heads of two lists. -/
def commonRun : PyStr → PyStr → Nat
  | x :: xs, y :: ys => if x = y then commonRun xs ys + 1 else 0
  | _, _ => 0

/-- Earliest longest common substring of a and b, as (start in a, start in b,
length): difflib SequenceMatcher.find_longest_match with no junk. -/
def longestMatch (a b : PyStr) : Nat × Nat × Nat :=
  (List.range a.length).foldl
    (fun best i =>
      (List.range b.length).foldl
        (fun best j =>
          let k := commonRun (a.drop i) (b.drop j)
          if k > best.2.2 then (i, j, k) else best)
        best)
    (0, 0, 0)

/-- Fuelled total number of matched characters across difflib matching blocks;
the fuel is always sufficient since each recursion strictly shrinks a. -/
def matchTotalF : Nat → PyStr → PyStr → Nat
  | 0, _, _ => 0
  | fuel + 1, a, b =>
    let m := longestMatch a b
    if m.2.2 = 0 then 0
    else
      matchTotalF fuel (a.take m.1) (b.take m.2.1) + m.2.2 +
        matchTotalF fuel (a.drop (m.1 + m.2.2)) (b.drop (m.2.1 + m.2.2))

/-- Total size of difflib matching blocks between a and b. -/
def matchTotal (a b : PyStr) : Nat :=
  matchTotalF (a.length + b.length + 1) a b

/-- difflib SequenceMatcher.ratio as an exact rational: 2M / (len a + len b),
and 1 when both inputs are empty. -/
def similarityQ (a b : PyStr) : ℚ :=
  let t := a.length + b.length
  if t = 0 then 1 else (2 * matchTotal a b : ℚ) / (t : ℚ)

/-- CodeWorker._find_whitespace_normalized: slide a window of 1 to 29 lines
over the file and return the first window whose whitespace-collapsed text
equals the whitespace-collapsed target. -/
def findWhitespaceNormalized (content target : PyStr) : Option PyStr :=
  let tn := wsNormalize target
  let lines := splitNl content
  (List.range lines.length).findSome? fun i =>
    (List.range' 1 (min 30 (lines.length - i + 1) - 1)).findSome? fun w =>
      let cand := joinNl ((lines.drop i).take w)
      if wsNormalize cand = tn then some cand else none

/-- CodeWorker._apply_case_pattern: map the case pattern of actual onto the
portion of newText that matches expected case-insensitively. -/
def applyCasePattern (expected actual newText : PyStr) : PyStr :=
  if containsSub (toLowerL newText) (toLowerL expected) then
    match findSub (toLowerL newText) (toLowerL expected) with
    | none => newText
    | some start =>
      let oldInNew := (newText.drop start).take expected.length
      let padded := actual ++ List.replicate (oldInNew.length - actual.length) ' '
      let adjusted := (oldInNew.zip padded).enum.map fun p =>
        if p.1 < actual.length ∧ Char.toLower p.2.1 = Char.toLower p.2.2 then p.2.2 else p.2.1
      newText.take start ++ adjusted ++ newText.drop (start + expected.length)
  else newText

/-- CodeWorker._find_case_insensitive_match: find old_code inside a single
line case-insensitively; succeed only if the lowered file contains the lowered
old_code exactly once. -/
def findCaseInsensitive (content old new : PyStr) : Option (PyStr × PyStr) :=
  let oldLower := toLowerL old
  (splitNl content).findSome? fun line =>
    if containsSub (toLowerL line) oldLower then
      match findSub (toLowerL line) oldLower with
      | none => none
      | some pos =>
        let actualOld := (line.drop pos).take old.length
        let adjustedNew :=
          if actualOld ≠ old then applyCasePattern old actualOld new else new
        if countOcc (toLowerL content) oldLower = 1 then some (actualOld, adjustedNew)
        else none
    else none

/-- CodeWorker._find_fuzzy_match: slide a window of as many lines as the
target over the file, keep the best similarity ratio, and accept it when it
reaches the threshold.  The unreachable Python path where no window exists but
the threshold is non-positive is modelled as no match. -/
def findFuzzy (content target : PyStr) (threshold : ℚ) : Option (PyStr × ℚ) :=
  let tStr := pyStrip target
  let targetLines := splitNl tStr
  let contentLines := splitNl content
  let tlen := targetLines.length
  let windowCount :=
    if tlen ≤ contentLines.length then contentLines.length - tlen + 1 else 0
  let best :=
    (List.range windowCount).foldl
      (fun acc i =>
        let cand := joinNl ((contentLines.drop i).take tlen)
        let r := similarityQ tStr (pyStrip cand)
        if r > acc.2 then (some cand, r) else acc)
      ((none : Option PyStr), (0 : ℚ))
  match best.1 with
  | some m => if best.2 ≥ threshold then some (m, best.2) else none
  | none => none

/-- CodeWorker._find_by_anchor_lines: pick the first non-empty, non-comment
line of old_code occurring in exactly one content line, locate it, and splice
new_code over the corresponding line range. -/
def findByAnchorLines (content old new : PyStr) : Option PyStr :=
  let oldLines := splitNl (pyStrip old)
  let contentLines := splitNl content
  match oldLines.enum.findSome? (fun p =>
      let stripped := pyStrip p.2
      if stripped = [] then none
      else if leadsWith ['#'] stripped then none
      else if leadsWith ['/', '/'] stripped then none
      else if (contentLines.filter fun cl => containsSub cl stripped).length = 1 then
        some (p.1, stripped)
      else none) with
  | none => none
  | some anchor =>
    match contentLines.enum.findSome?
        (fun p => if containsSub p.2 anchor.2 then some p.1 else none) with
    | none => none
    | some anchorIdxInContent =>
      let linesBefore := anchor.1
      let linesAfter := oldLines.length - anchor.1 - 1
      let startIdx := anchorIdxInContent - linesBefore
      let endIdx := min contentLines.length (anchorIdxInContent + linesAfter + 1)
      let newLines := splitNl (pyStrip new)
      some (joinNl (contentLines.take startIdx ++ newLines ++ contentLines.drop endIdx))

/-- Strategy 4 of CodeWorker.edit_file: anchor-line splice; an empty result is
falsy in Python and yields failure. -/
def editStrategy4 (content old new : PyStr) : Option PyStr :=
  match findByAnchorLines content old new with
  | some r => if r = [] then none else some r
  | none => none

/-- Strategy 3 of CodeWorker.edit_file: fuzzy match at threshold 0.85, falling
through when the replacement leaves the content unchanged. -/
def editStrategy3 (content old new : PyStr) : Option PyStr :=
  match findFuzzy content old (85 / 100) with
  | some m =>
    let nc := replaceFirst content m.1 new
    if nc ≠ content then some nc else editStrategy4 content old new
  | none => editStrategy4 content old new

/-- Strategy 2.5 of CodeWorker.edit_file: case-insensitive single-line match,
falling through when the replacement leaves the content unchanged. -/
def editStrategy25 (content old new : PyStr) : Option PyStr :=
  match findCaseInsensitive content old new with
  | some m =>
    let nc := replaceFirst content m.1 m.2
    if nc ≠ content then some nc else editStrategy3 content old new
  | none => editStrategy3 content old new

/-- Strategy 2 of CodeWorker.edit_file: whitespace-normalized window match; an
empty candidate is falsy in Python and is skipped. -/
def editStrategy2 (content old new : PyStr) : Option PyStr :=
  match findWhitespaceNormalized content old with
  | some cand =>
    if cand = [] then editStrategy25 content old new
    else
      let nc := replaceFirst content cand new
      if nc ≠ content then some nc else editStrategy25 content old new
  | none => editStrategy25 content old new

/-- CodeWorker.edit_file as a pure content transformer: some newContent when a
strategy replaces and the write succeeds, none when the edit is refused or no
strategy matches.  Strategy 1 refuses outright on more than one exact
occurrence and falls through to later strategies when the replacement would
leave the content unchanged. -/
def editFile (content old new : PyStr) : Option PyStr :=
  if containsSub content old then
    if countOcc content old > 1 then none
    else
      let nc := replaceFirst content old new
      if nc ≠ content then some nc else editStrategy2 content old new
  else editStrategy2 content old new

/-- FixStatus from src/mastermind/session.py. -/
inductive FixStatus
  | queued
  | analyzing
  | strategizing
  | awaitingApproval
  | implementing
  | testing
  | deploying
  | validating
  | completed
  | failed
  | rolledBack
  | blocked
deriving DecidableEq, Repr

/-- Issue from src/mastermind/session.py; the uuid and wall-clock defaults are
modelled as an opaque id string and a natural timestamp. -/
structure Issue where
  title : String
  description : String
  severity : String
  category : String
  reporter : String
  stepsToReproduce : List String := []
  expected : Option String := none
  actual : Option String := none
  timestamp : Nat := 0
  id : String := ""
deriving DecidableEq, Repr

/-- One parsed step of a strategy: a JSON object whose fields may be absent. -/
structure StrategyStep where
  action : Option String := none
  file : Option String := none
  oldCode : Option String := none
  newCode : Option String := none
  description : Option String := none
  code : Option String := none
deriving DecidableEq, Repr

/-- FixStrategy from src/mastermind/session.py. -/
structure FixStrategy where
  complexity : String
  description : String
  filesAffected : List String
  steps : List StrategyStep
  requiresApproval : Bool
  rollbackPlan : String
  estimatedTokens : Nat := 0
deriving DecidableEq, Repr

/-- FixSession from src/mastermind/session.py, with datetimes as naturals and
the accumulated cost as a rational. -/
structure FixSession where
  issue : Issue
  id : String := ""
  status : FixStatus := FixStatus.queued
  startedAt : Nat := 0
  completedAt : Option Nat := none
  threadId : Option Nat := none
  messageIds : List Nat := []
  strategy : Option FixStrategy := none
  branchName : Option String := none
  prUrl : Option String := none
  prNumber : Option Nat := none
  filesModified : List String := []
  commitHash : Option String := none
  validationPassed : Option Bool := none
  errorMessage : Option String := none
  ciAttempts : Nat := 0
  ciPassed : Option Bool := none
  ciFailures : List String := []
  claudeTokensUsed : Nat := 0
  claudeCost : ℚ := 0
  appliedLessonIds : List Nat := []
deriving DecidableEq, Repr

/-- Python truthiness of an optional string argument. -/
def optStrTruthy : Option String → Bool
  | none => false
  | some e => e ≠ ""

/-- FixSession.update_status: set the status, record a truthy error message,
and stamp completed_at when the new status is completed, failed or
rolled_back. -/
def updateStatus (now : Nat) (s : FixSession) (status : FixStatus)
    (error : Option String) : FixSession :=
  let s1 := { s with status := status }
  let s2 := if optStrTruthy error then { s1 with errorMessage := error } else s1
  if status = FixStatus.completed ∨ status = FixStatus.failed ∨
      status = FixStatus.rolledBack then
    { s2 with completedAt := some now }
  else s2

/-- Security keyword list of issue_parser.infer_category. -/
def securityKeywords : List String :=
  ["security", "auth", "password", "token", "xss", "injection", "csrf",
   "bypass", "unauthorized", "permission", "access denied"]

/-- Performance keyword list of issue_parser.infer_category. -/
def performanceKeywords : List String :=
  ["slow", "timeout", "loading", "performance", "speed", "latency", "delay",
   "hang", "freeze"]

/-- Accessibility keyword list of issue_parser.infer_category. -/
def accessibilityKeywords : List String :=
  ["accessibility", "a11y", "screen reader", "keyboard", "contrast", "aria",
   "focus"]

/-- UX keyword list of issue_parser.infer_category. -/
def uxKeywords : List String :=
  ["confusing", "unclear", "hard to find", "navigation", "layout", "design",
   "ui", "ux", "user experience"]

/-- issue_parser.infer_category: first keyword family found in the lowered
title-plus-description text wins; the default is bug. -/
def inferCategory (title description _severity : String) : String :=
  let text := toLowerL ((title ++ " " ++ description).data)
  if securityKeywords.any (fun kw => containsSub text kw.data) then "security"
  else if performanceKeywords.any (fun kw => containsSub text kw.data) then "performance"
  else if accessibilityKeywords.any (fun kw => containsSub text kw.data) then "accessibility"
  else if uxKeywords.any (fun kw => containsSub text kw.data) then "ux"
  else "bug"

/-- Removal of a leading number-dot marker, regex sub of a leading
digits-then-dot-then-whitespace pattern. -/
def stripNumberDot (l : PyStr) : PyStr :=
  let ds := l.takeWhile Char.isDigit
  if ds ≠ [] then
    match l.drop ds.length with
    | '.' :: rest => rest.dropWhile isSpaceChar
    | _ => l
  else l

/-- Removal of a leading dash or star bullet followed by whitespace. -/
def stripBullet : PyStr → PyStr
  | [] => []
  | c :: rest => if c = '-' ∨ c = '*' then rest.dropWhile isSpaceChar else c :: rest

/-- issue_parser.parse_steps: split on newlines, strip, drop empties, remove
leading numbering and bullets, keep what remains non-empty. -/
def parseSteps (raw : String) : List String :=
  (splitNl raw.data).filterMap fun line =>
    let s := pyStrip line
    if s = [] then none
    else
      let s2 := stripBullet (stripNumberDot s)
      if s2 = [] then none else some (String.mk s2)

/-- One embed field; name or value may be missing, which raises in Python. -/
structure EmbedField where
  name : Option String := none
  value : Option String := none
deriving DecidableEq, Repr

/-- A Discord embed as handed to the parser. -/
structure EmbedDict where
  title : Option String := none
  description : Option String := none
  fields : List EmbedField := []
deriving DecidableEq, Repr

/-- The field-name-to-value dict comprehension; a missing name or value raises
a KeyError in Python, making the whole parse return None. -/
def fieldsAssoc : List EmbedField → Option (List (String × String))
  | [] => some []
  | f :: rest =>
    match f.name, f.value with
    | some n, some v => (fieldsAssoc rest).map ((n, v) :: ·)
    | _, _ => none

/-- Python dict lookup with a default; a later duplicate key overrides an
earlier one, hence the reversed search. -/
def lookupFieldD (fields : List (String × String)) (key dflt : String) : String :=
  match fields.reverse.find? (fun p => p.1 = key) with
  | some p => p.2
  | none => dflt

/-- Python dict .get with None default, as an Option. -/
def lookupField? (fields : List (String × String)) (key : String) : Option String :=
  (fields.reverse.find? (fun p => p.1 = key)).map Prod.snd

/-- issue_parser.parse_discord_embed as a pure function of the embed; the
wall-clock timestamp is modelled as 0. -/
def parseDiscordEmbed (embed : EmbedDict) : Option Issue :=
  let title := embed.title.getD "Unknown Issue"
  let description := embed.description.getD ""
  match fieldsAssoc embed.fields with
  | none => none
  | some fdict =>
    let reporter := lookupFieldD fdict "Reporter" "Unknown"
    let severity := String.mk (toLowerL (lookupFieldD fdict "Severity" "medium").data)
    let steps := parseSteps (lookupFieldD fdict "Steps to Reproduce" "")
    let expected := lookupField? fdict "Expected"
    let actual := lookupField? fdict "Actual"
    let category := inferCategory title description severity
    some { title := title, description := description, severity := severity,
           category := category, reporter := reporter,
           stepsToReproduce := steps, expected := expected, actual := actual,
           timestamp := 0, id := "" }

/-- An issue dict found in a testers report; keys may be absent. -/
structure FoundIssue where
  title : Option String := none
  description : Option String := none
deriving DecidableEq, Repr

/-- Distinct lowered title tokens of the original issue. -/
def origTitleWords (original : Issue) : List PyStr :=
  (pySplitWs (toLowerL original.title.data)).dedup

/-- Distinct lowered title tokens of a found report issue, title defaulting to
the empty string. -/
def foundTitleWords (found : FoundIssue) : List PyStr :=
  (pySplitWs (toLowerL (found.title.getD "").data)).dedup

/-- Size of the intersection of the two title token sets. -/
def titleOverlap (original : Issue) (found : FoundIssue) : Nat :=
  ((origTitleWords original).filter (fun w => w ∈ foundTitleWords found)).length

/-- Size of the union of the two title token sets. -/
def titleTotal (original : Issue) (found : FoundIssue) : Nat :=
  ((origTitleWords original) ++ (foundTitleWords found)).dedup.length

/-- TestWorker._issues_match: true iff the token sets overlap on more than
half of their union.  Descriptions are not consulted. -/
def issuesMatch (original : Issue) (found : FoundIssue) : Bool :=
  let overlap := titleOverlap original found
  let total := titleTotal original found
  decide (0 < total) && decide ((overlap : ℚ) / (total : ℚ) > 1 / 2)

/-- The report scan inside TestWorker.validate_issue_fixed: validation fails
as soon as some found issue matches the original. -/
def validateReports (original : Issue) : List FoundIssue → Bool
  | [] => true
  | r :: rest => if issuesMatch original r then false else validateReports original rest

/-- The similarity relation of spec section 4.6, stated from the claim's own
words for comparison with the code's issuesMatch: title Jaccard above one
half, or either description a case-insensitive substring of the other. -/
def claimIssuesMatch (original : Issue) (found : FoundIssue) : Bool :=
  let overlap := titleOverlap original found
  let total := titleTotal original found
  let d1 := toLowerL original.description.data
  let d2 := toLowerL (found.description.getD "").data
  (decide (0 < total) && decide ((overlap : ℚ) / (total : ℚ) > 1 / 2)) ||
    containsSub d1 d2 || containsSub d2 d1

/-- One row of the lessons table in src/safety/learning_tracker.py. -/
structure LessonRow where
  id : Nat
  failureId : Option Nat := none
  createdAt : Nat
  failureType : String
  rootCause : String
  lesson : String
  preventionRule : String
  timesApplied : Nat := 0
  successCount : Nat := 0
  failureCount : Nat := 0
  active : Bool := true
deriving DecidableEq, Repr

/-- The Lesson dataclass returned by the learning tracker. -/
structure Lesson where
  id : Nat
  failureType : String
  rootCause : String
  lessonText : String
  preventionRule : String
  timesApplied : Nat
  successRate : ℚ
  active : Bool
  createdAt : Nat
deriving DecidableEq, Repr

/-- Success rate of a lesson row: success_count / times_applied, and the
neutral 0.5 when the lesson was never applied. -/
def rowSuccessRate (r : LessonRow) : ℚ :=
  if r.timesApplied > 0 then (r.successCount : ℚ) / (r.timesApplied : ℚ) else 1 / 2

/-- The ORDER BY key of get_relevant_lessons: success_rate descending, then
times_applied descending, then created_at descending. -/
def lessonRowLE (a b : LessonRow) : Bool :=
  if rowSuccessRate a ≠ rowSuccessRate b then decide (rowSuccessRate b < rowSuccessRate a)
  else if a.timesApplied ≠ b.timesApplied then decide (b.timesApplied < a.timesApplied)
  else decide (b.createdAt ≤ a.createdAt)

/-- The lessonRowLE ordering as a decidable relation for insertionSort. -/
def lessonRowRel (a b : LessonRow) : Prop :=
  lessonRowLE a b = true

instance : DecidableRel lessonRowRel := fun a b => by
  unfold lessonRowRel
  infer_instance

/-- Conversion of a row to the returned Lesson dataclass, recomputing the
success rate exactly as the Python loop does. -/
def rowToLesson (r : LessonRow) : Lesson :=
  { id := r.id, failureType := r.failureType, rootCause := r.rootCause,
    lessonText := r.lesson, preventionRule := r.preventionRule,
    timesApplied := r.timesApplied, successRate := rowSuccessRate r,
    active := r.active, createdAt := r.createdAt }

/-- LearningTracker.get_relevant_lessons: the SQL query selects all active
lessons ordered by the key with LIMIT limit * 2, then the Python code maps
them to Lesson values and returns the first limit of them.  The category and
files arguments do not appear in the query.  SQL ordering with ties is
unspecified; a stable insertion sort stands in for it. -/
def getRelevantLessons (_issueCategory : Option String) (_files : Option (List String))
    (limit : Nat) (db : List LessonRow) : List Lesson :=
  let rows := (db.filter (fun r => r.active)).insertionSort lessonRowRel
  let rows := rows.take (limit * 2)
  (rows.map rowToLesson).take limit

/-- CIStatus from src/workers/pr_monitor_worker.py. -/
inductive CIStatus
  | pending
  | running
  | success
  | failure
  | unknown
deriving DecidableEq, Repr

/-- One raw entry of statusCheckRollup, keys possibly absent. -/
structure RawCheck where
  name : Option String := none
  status : Option String := none
  conclusion : Option String := none
deriving DecidableEq, Repr

/-- Per-check CIStatus derivation inside PRMonitorWorker.get_pr_status. -/
def ciStatusOf (c : RawCheck) : CIStatus :=
  let st := String.mk (toUpperL (c.status.getD "").data)
  let conclusion := c.conclusion.getD ""
  if st = "COMPLETED" then
    if conclusion = "SUCCESS" then CIStatus.success
    else if conclusion = "FAILURE" ∨ conclusion = "CANCELLED" ∨ conclusion = "TIMED_OUT" then
      CIStatus.failure
    else CIStatus.unknown
  else if st = "IN_PROGRESS" ∨ st = "QUEUED" ∨ st = "PENDING" then
    if st = "IN_PROGRESS" then CIStatus.running else CIStatus.pending
  else CIStatus.unknown

/-- One step of the flag loop of get_pr_status: the accumulator is
(has_pending, has_failure, all_success). -/
def prFlagsStep (acc : Bool × Bool × Bool) (c : RawCheck) : Bool × Bool × Bool :=
  match ciStatusOf c with
  | CIStatus.failure => (acc.1, true, false)
  | CIStatus.running => (true, acc.2.1, false)
  | CIStatus.pending => (true, acc.2.1, false)
  | CIStatus.success => acc
  | CIStatus.unknown => (acc.1, acc.2.1, false)

/-- Aggregate CI status of PRMonitorWorker.get_pr_status: failure wins, then
pending, then success when every check succeeded and at least one check
exists, else unknown. -/
def getPrOverallStatus (checks : List RawCheck) : CIStatus :=
  let flags := checks.foldl prFlagsStep (false, false, true)
  if flags.2.1 then CIStatus.failure
  else if flags.1 then CIStatus.pending
  else if flags.2.2 && !checks.isEmpty then CIStatus.success
  else CIStatus.unknown

/-- Per-million-token pricing of CostTracker.PRICING, with the dict fallback
to the sonnet entry. -/
def pricingFor (model : String) : ℚ × ℚ :=
  if model = "claude-opus-4-20250514" then (15, 75)
  else if model = "claude-sonnet-4-20250514" then (3, 15)
  else (3, 15)

/-- Cost of one API call in CostTracker.record_usage. -/
def usageCost (model : String) (inputTokens outputTokens : Nat) : ℚ :=
  let p := pricingFor model
  (inputTokens : ℚ) / 1000000 * p.1 + (outputTokens : ℚ) / 1000000 * p.2

/-- One row of the api_usage table. -/
structure UsageRow where
  date : String
  model : String
  inputTokens : Nat
  outputTokens : Nat
  cost : ℚ
  sessionId : Option String := none
  operation : Option String := none
deriving DecidableEq, Repr

/-- CostTracker.get_today_cost: sum of the cost column over rows of the given
date (SUM of no rows is NULL, read as 0). -/
def getTodayCost (today : String) (rows : List UsageRow) : ℚ :=
  ((rows.filter (fun r => r.date = today)).map (fun r => r.cost)).sum

/-- CostTracker.record_usage: insert the row, then send the cost warning
whenever the day's total is strictly above 80 percent of the daily limit.
Returns the new row list, the cost of this call, and whether the warning was
sent. -/
def recordUsage (dailyLimit : ℚ) (rows : List UsageRow) (today : String)
    (model : String) (inputTokens outputTokens : Nat)
    (sessionId operation : Option String) : List UsageRow × ℚ × Bool :=
  let cost := usageCost model inputTokens outputTokens
  let row : UsageRow := { date := today, model := model,
                          inputTokens := inputTokens, outputTokens := outputTokens,
                          cost := cost, sessionId := sessionId, operation := operation }
  let rows2 := rows ++ [row]
  let todayCost := getTodayCost today rows2
  (rows2, cost, decide (todayCost > dailyLimit * (8 / 10)))

/-- One call of a single-day sequence: model and token counts. -/
structure UsageCall where
  model : String
  inputTokens : Nat
  outputTokens : Nat
deriving DecidableEq, Repr

/-- Warning flags produced by running record_usage over a day's calls in
order, starting from the given persisted rows. -/
def dayWarningsAux (dailyLimit : ℚ) (today : String) (rows : List UsageRow) :
    List UsageCall → List Bool
  | [] => []
  | c :: rest =>
    let r := recordUsage dailyLimit rows today c.model c.inputTokens c.outputTokens none none
    r.2.2 :: dayWarningsAux dailyLimit today r.1 rest

/-- Warning flags of a fresh day's call sequence. -/
def dayWarnings (dailyLimit : ℚ) (today : String) (calls : List UsageCall) : List Bool :=
  dayWarningsAux dailyLimit today [] calls

/-- Running totals of a day's call costs, offset by an initial total. -/
def prefixTotals (acc : ℚ) : List UsageCall → List ℚ
  | [] => []
  | c :: rest =>
    let t := acc + usageCost c.model c.inputTokens c.outputTokens
    t :: prefixTotals t rest

/-- REQUIRE_APPROVAL_FOR from src/mastermind_config.py. -/
def REQUIRE_APPROVAL_FOR : List String :=
  ["security", "authentication", "database"]

/-- The parsed strategy JSON dict handed to validation, fields possibly
absent. -/
structure StrategyData where
  complexity : Option String := none
  description : Option String := none
  filesAffected : List String := []
  steps : List StrategyStep := []
  requiresApproval : Option Bool := none
  rollbackPlan : Option String := none
  estimatedTokens : Option Nat := none
deriving DecidableEq, Repr

/-- The validation tail of MastermindAgent.create_strategy: reject a parsed
strategy with no edit_file step, force requires_approval for the configured
categories, and build the FixStrategy with the from_dict defaults. -/
def createStrategy (data : StrategyData) (issueCategory : String) : Option FixStrategy :=
  let steps := data.steps
  let editActions := steps.filter (fun s => s.action = some "edit_file")
  if editActions.isEmpty then none
  else
    let requiresApproval :=
      if issueCategory ∈ REQUIRE_APPROVAL_FOR then true
      else data.requiresApproval.getD true
    some { complexity := data.complexity.getD "moderate",
           description := data.description.getD "",
           filesAffected := data.filesAffected,
           steps := steps,
           requiresApproval := requiresApproval,
           rollbackPlan := data.rollbackPlan.getD "git reset --hard HEAD~1",
           estimatedTokens := data.estimatedTokens.getD 0 }

/-- Lookup in the modelled filesystem. -/
def fsRead (fs : List (String × PyStr)) (file : String) : Option PyStr :=
  (fs.find? (fun p => p.1 = file)).map Prod.snd

/-- Write to the modelled filesystem, replacing an existing entry. -/
def fsWrite (fs : List (String × PyStr)) (file : String) (content : PyStr) :
    List (String × PyStr) :=
  if (fs.find? (fun p => p.1 = file)).isSome then
    fs.map (fun p => if p.1 = file then (file, content) else p)
  else fs ++ [(file, content)]

/-- The step loop and final checks of MastermindAgent.implement_fix: att and
succ count attempted and succeeded edit_file steps, fm collects the
files_modified entries (Python may append None).  A missing old_code or
new_code raises inside edit_file and the surrounding try turns it into an
overall False. -/
def implementGo (fs : List (String × PyStr)) (att succ : Nat)
    (fm : List (Option String)) : List StrategyStep → Bool
  | [] =>
    if att > 0 ∧ succ = 0 then false
    else if att = 0 then false
    else decide (0 < fm.length)
  | step :: rest =>
    if step.action = some "edit_file" then
      match step.oldCode, step.newCode with
      | some old, some new =>
        match step.file with
        | some f =>
          match fsRead fs f with
          | some content =>
            match editFile content old.data new.data with
            | some nc => implementGo (fsWrite fs f nc) (att + 1) (succ + 1) (fm ++ [step.file]) rest
            | none => implementGo fs (att + 1) succ fm rest
          | none => implementGo fs (att + 1) succ fm rest
        | none => implementGo fs (att + 1) succ fm rest
      | _, _ => false
    else if step.action = some "add_test" then
      implementGo fs att succ (fm ++ [step.file]) rest
    else implementGo fs att succ fm rest

/-- MastermindAgent.implement_fix restricted to its pure step-processing
core, over the modelled filesystem. -/
def implementFix (fs : List (String × PyStr)) (steps : List StrategyStep) : Bool :=
  implementGo fs 0 0 [] steps

/-- The Notifier bot as seen by _request_approval: its verdict on a strategy
description. -/
structure NotifierBot where
  approvalVerdict : String → Bool

/-- MastermindAgent._request_approval: ask the bot when present, auto-approve
otherwise. -/
def requestApproval (bot : Option NotifierBot) (strategyDescription : String) : Bool :=
  match bot with
  | some b => b.approvalVerdict strategyDescription
  | none => true

/-- The approval gate of MastermindAgent._process_session step 3: on the
first attempt of a strategy that requires approval, a denied request sends
the session to blocked, otherwise it proceeds to implementing. -/
def approvalGate (bot : Option NotifierBot) (attempt : Nat) (strategy : FixStrategy) : FixStatus :=
  if attempt = 1 ∧ strategy.requiresApproval then
    if requestApproval bot strategy.description then FixStatus.implementing
    else FixStatus.blocked
  else FixStatus.implementing

/-- Whether a raw check derives to a failed per-check status. -/
def isFailCheck (c : RawCheck) : Bool :=
  decide (ciStatusOf c = CIStatus.failure)

/-- Whether a raw check derives to a running or pending per-check status. -/
def isPendCheck (c : RawCheck) : Bool :=
  decide (ciStatusOf c = CIStatus.running) || decide (ciStatusOf c = CIStatus.pending)

/-- Whether a raw check derives to a successful per-check status. -/
def isSuccCheck (c : RawCheck) : Bool :=
  decide (ciStatusOf c = CIStatus.success)

/-- Example issue used by concrete instances. -/
def issue0 : Issue :=
  { title := "t", description := "d", severity := "medium", category := "bug",
    reporter := "r" }

/-- Fresh session on issue0, all dataclass defaults. -/
def sessionEx : FixSession :=
  { issue := issue0 }

/-- Original issue of the validation example: title disjoint from the report,
description contained in the report's description. -/
def origEx : Issue :=
  { title := "alpha", description := "abc", severity := "low",
    category := "bug", reporter := "r" }

/-- Report issue of the validation example. -/
def foundEx : FoundIssue :=
  { title := some "beta", description := some "xyz abc xyz" }

/-- Original issue of the c3 witness, sharing three of four title tokens with
foundW. -/
def origW : Issue :=
  { title := "login button broken", description := "x", severity := "low",
    category := "bug", reporter := "r" }

/-- Report issue of the c3 witness. -/
def foundW : FoundIssue :=
  { title := some "login button broken weird", description := some "y" }

/-- A single active lesson row with no category or file information. -/
def rowEx : LessonRow :=
  { id := 1, createdAt := 10, failureType := "flake8", rootCause := "rc",
    lesson := "l", preventionRule := "pr" }

/-- A completed check whose conclusion is SKIPPED: neither failed nor
pending nor successful per the per-check derivation. -/
def skippedCheck : RawCheck :=
  { status := some "COMPLETED", conclusion := some "SKIPPED" }

/-- A completed check that failed. -/
def failedCheck : RawCheck :=
  { status := some "COMPLETED", conclusion := some "FAILURE" }

/-- A check still in progress. -/
def runningCheck : RawCheck :=
  { status := some "IN_PROGRESS" }

/-- A sonnet call costing 6 dollars. -/
def callSixDollars : UsageCall :=
  { model := "claude-sonnet-4-20250514", inputTokens := 2000000, outputTokens := 0 }

/-- A sonnet call costing 3 dollars. -/
def callThreeDollars : UsageCall :=
  { model := "claude-sonnet-4-20250514", inputTokens := 1000000, outputTokens := 0 }

/-- A strategy step that only adds a test. -/
def addTestStep : StrategyStep :=
  { action := some "add_test", file := some "tests/test_x.py", code := some "pass" }

/-- A strategy step that edits a file. -/
def editStep : StrategyStep :=
  { action := some "edit_file", file := some "app.py", oldCode := some "a",
    newCode := some "b" }

/-- Parsed strategy data holding only an add_test step. -/
def dataAddTestEx : StrategyData :=
  { steps := [addTestStep] }

/-- Parsed strategy data holding one edit_file step. -/
def dataEditEx : StrategyData :=
  { steps := [editStep] }

/-- The strategy createStrategy builds from dataEditEx under a security
category: approval forced, all other fields from the from_dict defaults. -/
def stratSec : FixStrategy :=
  { complexity := "moderate", description := "", filesAffected := [],
    steps := [editStep], requiresApproval := true,
    rollbackPlan := "git reset --hard HEAD~1", estimatedTokens := 0 }

/-- A strategy requiring approval, used to instantiate the approval gate. -/
def stratEx : FixStrategy :=
  { complexity := "simple", description := "x", filesAffected := [],
    steps := [editStep], requiresApproval := true, rollbackPlan := "r" }

/-- Embed whose Severity field is an unknown value. -/
def embedEx : EmbedDict :=
  { title := some "t", description := some "d",
    fields := [{ name := some "Severity", value := some "BANANA" }] }

/-- The issue parse_discord_embed produces from embedEx: the severity is the
lowered field value, passed through without coercion. -/
def issueExC9 : Issue :=
  { title := "t", description := "d", severity := "banana", category := "bug",
    reporter := "Unknown" }

/-! Theorems. -/

/-- A positive occurrence count implies the substring test succeeds. -/
theorem countOcc_pos_contains {s pat : PyStr} (h : 1 ≤ countOcc s pat) :
    containsSub s pat = true := by
  unfold countOcc at h
  by_cases hp : pat = []
  · subst hp
    unfold containsSub findSub
    simp [leadsWith]
  · rw [if_neg hp] at h
    rcases hf : findSub s pat with _ | i
    · unfold countOccAux at h
      rw [hf] at h
      simp at h
    · simp [containsSub, hf]

/-- Strategy 1 refusal: more than one exact occurrence of old_code makes
edit_file return failure before any other strategy is tried. -/
theorem editFile_refusal {content old new : PyStr} (h : 2 ≤ countOcc content old) :
    editFile content old new = none := by
  have hc : containsSub content old = true := countOcc_pos_contains (by omega)
  have hgt : countOcc content old > 1 := by omega
  simp [editFile, hc, hgt]

/-- Strategy 1 success: a unique exact occurrence whose replacement changes
the content is replaced. -/
theorem editFile_unique_exact {content old new : PyStr}
    (h1 : countOcc content old = 1)
    (hne : replaceFirst content old new ≠ content) :
    editFile content old new = some (replaceFirst content old new) := by
  have hc : containsSub content old = true := countOcc_pos_contains (by omega)
  have hgt : ¬ countOcc content old > 1 := by omega
  simp [editFile, hc, hgt, hne]

/-- C1: the claim states that completed_at is non-null iff the status is one
of completed, failed, rolled_back or blocked, and in particular that a
transition to blocked sets completed_at.  Counterexample: updating a fresh
session to blocked leaves completed_at null while the status is blocked. -/
theorem c1_blocked_counterexample :
    ¬ (((updateStatus 5 sessionEx FixStatus.blocked none).completedAt ≠ none) ↔
      ((updateStatus 5 sessionEx FixStatus.blocked none).status = FixStatus.completed ∨
       (updateStatus 5 sessionEx FixStatus.blocked none).status = FixStatus.failed ∨
       (updateStatus 5 sessionEx FixStatus.blocked none).status = FixStatus.rolledBack ∨
       (updateStatus 5 sessionEx FixStatus.blocked none).status = FixStatus.blocked)) := by
  decide

/-- C1 (amended): update_status stamps completed_at exactly on transitions to
completed, failed or rolled_back; any other status, blocked included, leaves
completed_at unchanged, and completed_at is never cleared. -/
theorem c1_update_status_completed_at (now : Nat) (s : FixSession)
    (status : FixStatus) (error : Option String) :
    (updateStatus now s status error).status = status ∧
    (updateStatus now s status error).completedAt =
      (if status = FixStatus.completed ∨ status = FixStatus.failed ∨
          status = FixStatus.rolledBack then some now else s.completedAt) := by
  unfold updateStatus
  by_cases ht : optStrTruthy error = true <;>
    by_cases hs : status = FixStatus.completed ∨ status = FixStatus.failed ∨
      status = FixStatus.rolledBack <;>
    simp [ht, hs]

/-- C1 witness: the amended characterization evaluated on a transition of the
example session to completed. -/
theorem c1_update_status_completed_at_w :
    (updateStatus 3 sessionEx FixStatus.completed none).completedAt = some 3 := by
  rw [(c1_update_status_completed_at 3 sessionEx FixStatus.completed none).2]
  decide

/-- C2: the claim states that every matching strategy succeeds only on an
unambiguous single-occurrence match.  Counterexample: with two
whitespace-variant copies of the target, the exact strategy does not fire, and
the whitespace-normalized strategy replaces although its matched text occurs
twice in the file; additionally, a pattern with two overlapping exact
occurrences is replaced because the non-overlapping count is 1. -/
theorem c2_ambiguous_match_counterexample :
    countOcc "a  b\na  b".data "a  b".data = 2 ∧
    editFile "a  b\na  b".data "a b".data "Z".data = some "Z\na  b".data ∧
    leadsWith "aa".data ("aaa".data.drop 0) = true ∧
    leadsWith "aa".data ("aaa".data.drop 1) = true ∧
    editFile "aaa".data "aa".data "X".data = some "Xa".data := by
  decide

/-- C2 (amended): the exact-substring strategy refuses whenever old_code has
two or more non-overlapping occurrences in the file; the later strategies do
not enforce uniqueness of their own matches. -/
theorem c2_multiple_exact_refused (content old new : PyStr)
    (h : 2 ≤ countOcc content old) :
    editFile content old new = none :=
  editFile_refusal h

/-- C2 witness: a file holding the pattern twice is refused. -/
theorem c2_multiple_exact_refused_w :
    editFile "xyxy".data "xy".data "Z".data = none :=
  c2_multiple_exact_refused "xyxy".data "xy".data "Z".data (by decide)

/-- C7: the claim states that re-applying a successful edit either fails or
leaves the content unchanged.  Counterexample: replacing a by ab in the file a
succeeds, and the second application succeeds again and yields abb, a third
content. -/
theorem c7_idempotence_counterexample :
    editFile "a".data "a".data "ab".data = some "ab".data ∧
    editFile "ab".data "a".data "ab".data = some "abb".data ∧
    "abb".data ≠ "ab".data := by
  decide

/-- C7 (amended): re-application of the same edit is not idempotent in
general.  After a successful first application, whenever old_code still
occurs exactly once in the resulting content (for instance because new_code
contains old_code) and the replacement would change it, the second
application succeeds and performs a further replacement rather than failing
or returning the same content. -/
theorem c7_second_application (c0 old new c1 : PyStr)
    (_hfirst : editFile c0 old new = some c1)
    (hcount : countOcc c1 old = 1)
    (hne : replaceFirst c1 old new ≠ c1) :
    editFile c1 old new = some (replaceFirst c1 old new) :=
  editFile_unique_exact hcount hne

/-- C7 witness: the amended statement evaluated on the counterexample pair. -/
theorem c7_second_application_w :
    editFile "ab".data "a".data "ab".data = some (replaceFirst "ab".data "a".data "ab".data) :=
  c7_second_application "a".data "a".data "ab".data "ab".data (by decide) (by decide) (by decide)


/-- The rational comparison inside issuesMatch, characterised over the
naturals: the ratio exceeds one half iff the union is non-empty and smaller
than twice the intersection. -/
theorem issuesMatch_iff (o : Issue) (f : FoundIssue) :
    issuesMatch o f = true ↔
      0 < titleTotal o f ∧ titleTotal o f < 2 * titleOverlap o f := by
  unfold issuesMatch
  simp only [Bool.and_eq_true, decide_eq_true_eq]
  constructor
  · rintro ⟨hT, hQ⟩
    refine ⟨hT, ?_⟩
    have h2 : (0 : ℚ) < titleTotal o f := by exact_mod_cast hT
    rw [gt_iff_lt, div_lt_div_iff (by norm_num) h2] at hQ
    have h3 : (titleTotal o f : ℚ) < 2 * titleOverlap o f := by linarith
    exact_mod_cast h3
  · rintro ⟨hT, hlt⟩
    refine ⟨hT, ?_⟩
    have h2 : (0 : ℚ) < titleTotal o f := by exact_mod_cast hT
    rw [gt_iff_lt, div_lt_div_iff (by norm_num) h2]
    have h3 : (titleTotal o f : ℚ) < 2 * titleOverlap o f := by exact_mod_cast hlt
    linarith

/-- The example pair does not match under the code's title-only relation. -/
theorem origEx_no_match : issuesMatch origEx foundEx = false := by
  cases hb : issuesMatch origEx foundEx with
  | false => rfl
  | true => exact absurd ((issuesMatch_iff origEx foundEx).mp hb) (by decide)

/-- C3: the claim states that two issues are the same iff the title Jaccard
exceeds one half or either description contains the other case-insensitively.
Counterexample: a report whose description contains the original's
description but whose title is disjoint is matched by the claim's relation,
is not matched by the code, and the validation report scan passes. -/
theorem c3_description_substring_counterexample :
    claimIssuesMatch origEx foundEx = true ∧
    issuesMatch origEx foundEx = false ∧
    validateReports origEx [foundEx] = true := by
  refine ⟨?_, origEx_no_match, ?_⟩
  · unfold claimIssuesMatch
    simp only [Bool.or_eq_true]
    exact Or.inr (by decide)
  · simp [validateReports, origEx_no_match]

/-- C3 (amended): the code's relation is title-only Jaccard: descriptions are
ignored entirely, a match holds iff the token-set union is non-empty and
smaller than twice the intersection, and the validation report scan passes
iff no report matches under this title-only relation. -/
theorem c3_issues_match_title_only (o : Issue) (f : FoundIssue)
    (d1 d2 : String) (rs : List FoundIssue) :
    issuesMatch { o with description := d1 } { f with description := d2 } = issuesMatch o f ∧
    (issuesMatch o f = true ↔
      0 < titleTotal o f ∧ titleTotal o f < 2 * titleOverlap o f) ∧
    (validateReports o rs = true ↔ ∀ r ∈ rs, issuesMatch o r = false) := by
  refine ⟨rfl, issuesMatch_iff o f, ?_⟩
  induction rs with
  | nil => simp [validateReports]
  | cons r rest ih =>
    by_cases hm : issuesMatch o r = true
    · simp [validateReports, hm]
    · simp only [Bool.not_eq_true] at hm
      simp [validateReports, hm, ih]

/-- C3 witness: the Jaccard characterization applied to a pair sharing three
of four title tokens. -/
theorem c3_issues_match_title_only_w :
    issuesMatch origW foundW = true :=
  ((c3_issues_match_title_only origW foundW "" "" []).2.1).mpr (by decide)

/-- Characterization of the ORDER BY comparison as a lexicographic
disjunction. -/
theorem lessonRowLE_iff (a b : LessonRow) :
    lessonRowLE a b = true ↔
      rowSuccessRate b < rowSuccessRate a ∨
        (rowSuccessRate a = rowSuccessRate b ∧
          (b.timesApplied < a.timesApplied ∨
            (a.timesApplied = b.timesApplied ∧ b.createdAt ≤ a.createdAt))) := by
  unfold lessonRowLE
  by_cases h1 : rowSuccessRate a = rowSuccessRate b
  · by_cases h2 : a.timesApplied = b.timesApplied
    · simp [h1, h2]
    · simp [h1, h2]
  · simp [h1]

/-- The ORDER BY comparison is total. -/
instance : IsTotal LessonRow lessonRowRel := by
  constructor
  intro a b
  unfold lessonRowRel
  rw [lessonRowLE_iff, lessonRowLE_iff]
  rcases lt_trichotomy (rowSuccessRate a) (rowSuccessRate b) with h1 | h1 | h1
  · right
    exact Or.inl h1
  · rcases lt_trichotomy a.timesApplied b.timesApplied with h2 | h2 | h2
    · right
      exact Or.inr ⟨h1.symm, Or.inl h2⟩
    · rcases Nat.le_total b.createdAt a.createdAt with h3 | h3
      · left
        exact Or.inr ⟨h1, Or.inr ⟨h2, h3⟩⟩
      · right
        exact Or.inr ⟨h1.symm, Or.inr ⟨h2.symm, h3⟩⟩
    · left
      exact Or.inr ⟨h1, Or.inl h2⟩
  · left
    exact Or.inl h1

/-- The ORDER BY comparison is transitive. -/
instance : IsTrans LessonRow lessonRowRel := by
  constructor
  intro a b c hab hbc
  unfold lessonRowRel at *
  rw [lessonRowLE_iff] at hab hbc ⊢
  rcases hab with h1 | ⟨h1, h2⟩
  · rcases hbc with g1 | ⟨g1, _⟩
    · exact Or.inl (lt_trans g1 h1)
    · exact Or.inl (g1 ▸ h1)
  · rcases hbc with g1 | ⟨g1, g2⟩
    · exact Or.inl (h1 ▸ g1)
    · refine Or.inr ⟨h1.trans g1, ?_⟩
      rcases h2 with h2 | ⟨h2, h3⟩
      · rcases g2 with g2 | ⟨g2, _⟩
        · exact Or.inl (lt_trans g2 h2)
        · exact Or.inl (g2 ▸ h2)
      · rcases g2 with g2 | ⟨g2, g3⟩
        · exact Or.inl (h2 ▸ g2)
        · exact Or.inr ⟨h2.trans g2, le_trans g3 h3⟩

/-- C4: the claim states that every returned lesson matches the given issue
category and affected files.  Counterexample: the query ignores both
arguments; a store holding one active flake8 lesson returns it unchanged for
a security query on auth.py and for a ux query on app.py alike. -/
theorem c4_ignores_category_counterexample :
    getRelevantLessons (some "security") (some ["auth.py"]) 5 [rowEx] = [rowToLesson rowEx] ∧
    getRelevantLessons (some "ux") (some ["app.py"]) 5 [rowEx] = [rowToLesson rowEx] ∧
    (rowToLesson rowEx).failureType = "flake8" :=
  ⟨rfl, rfl, rfl⟩

/-- C4 (amended): get_relevant_lessons ignores its category and files
arguments entirely; it returns at most limit lessons, every returned lesson is
active, and the result is ordered by success rate descending (unapplied
lessons counting as one half), then times-applied descending, then recency
descending. -/
theorem c4_get_relevant_lessons_props (cat : Option String)
    (files : Option (List String)) (limit : Nat) (db : List LessonRow) :
    getRelevantLessons cat files limit db = getRelevantLessons none none limit db ∧
    (getRelevantLessons cat files limit db).length ≤ limit ∧
    (∀ l ∈ getRelevantLessons cat files limit db, l.active = true) ∧
    List.Pairwise (fun a b : Lesson =>
        b.successRate < a.successRate ∨
          (a.successRate = b.successRate ∧
            (b.timesApplied < a.timesApplied ∨
              (a.timesApplied = b.timesApplied ∧ b.createdAt ≤ a.createdAt))))
      (getRelevantLessons cat files limit db) := by
  refine ⟨rfl, ?_, ?_, ?_⟩
  · unfold getRelevantLessons
    exact List.length_take_le _ _
  · intro l hl
    unfold getRelevantLessons at hl
    obtain ⟨r, hr, rfl⟩ := List.mem_map.mp (List.mem_of_mem_take hl)
    have hr2 : r ∈ (db.filter (fun r => r.active)).insertionSort lessonRowRel :=
      List.mem_of_mem_take hr
    have hr3 : r ∈ db.filter (fun r => r.active) :=
      (List.perm_insertionSort lessonRowRel _).subset hr2
    have ha := List.of_mem_filter hr3
    simpa [rowToLesson] using ha
  · unfold getRelevantLessons
    apply List.Pairwise.sublist (List.take_sublist _ _)
    rw [List.pairwise_map]
    apply List.Pairwise.sublist (List.take_sublist _ _)
    have hs := List.sorted_insertionSort lessonRowRel (db.filter (fun r => r.active))
    apply hs.imp
    intro a b hab
    have hx := (lessonRowLE_iff a b).mp hab
    simpa [rowToLesson] using hx

/-- C4 witness: the active-lessons conjunct applied to the one-lesson store. -/
theorem c4_get_relevant_lessons_props_w :
    (rowToLesson rowEx).active = true :=
  (c4_get_relevant_lessons_props (some "security") (some ["auth.py"]) 1 [rowEx]).2.2.1
    (rowToLesson rowEx) (List.Mem.head _)

/-- The flag loop of get_pr_status computes any-failed, any-pending and
all-successful over the checks. -/
theorem prFlags_foldl (l : List RawCheck) (p f a : Bool) :
    l.foldl prFlagsStep (p, f, a) =
      (p || l.any isPendCheck, f || l.any isFailCheck, a && l.all isSuccCheck) := by
  induction l generalizing p f a with
  | nil => simp
  | cons c rest ih =>
    rw [List.foldl_cons, ih]
    rcases h : ciStatusOf c <;>
      simp [prFlagsStep, h, isPendCheck, isFailCheck, isSuccCheck,
        Bool.or_assoc, Bool.and_assoc]

/-- C5: the claim states that with no failures and nothing running or pending
the aggregate is success.  Counterexample: a single completed check with a
SKIPPED conclusion is neither failed nor running nor pending, yet the
aggregate is unknown, not success. -/
theorem c5_skipped_counterexample :
    ciStatusOf skippedCheck ≠ CIStatus.failure ∧
    ciStatusOf skippedCheck ≠ CIStatus.running ∧
    ciStatusOf skippedCheck ≠ CIStatus.pending ∧
    getPrOverallStatus [skippedCheck] = CIStatus.unknown ∧
    CIStatus.unknown ≠ CIStatus.success := by
  decide

/-- C5 (amended): the aggregate is failure when any check failed, even with
running or pending checks present; otherwise pending when any check is
running or pending; otherwise success only when the check list is non-empty
and every check completed successfully; otherwise unknown. -/
theorem c5_overall_status_characterization (checks : List RawCheck) :
    getPrOverallStatus checks =
      (if checks.any isFailCheck then CIStatus.failure
       else if checks.any isPendCheck then CIStatus.pending
       else if !checks.isEmpty && checks.all isSuccCheck then CIStatus.success
       else CIStatus.unknown) ∧
    (∀ c ∈ checks, ciStatusOf c = CIStatus.failure →
      getPrOverallStatus checks = CIStatus.failure) := by
  have hchar : getPrOverallStatus checks =
      (if checks.any isFailCheck then CIStatus.failure
       else if checks.any isPendCheck then CIStatus.pending
       else if !checks.isEmpty && checks.all isSuccCheck then CIStatus.success
       else CIStatus.unknown) := by
    unfold getPrOverallStatus
    rw [prFlags_foldl]
    simp only [Bool.false_or, Bool.true_and]
    simp [and_comm]
  refine ⟨hchar, ?_⟩
  intro c hc hfail
  rw [hchar]
  have hany : checks.any isFailCheck = true :=
    List.any_eq_true.mpr ⟨c, hc, by simp [isFailCheck, hfail]⟩
  simp [hany]

/-- C5 witness: one failed and one running check aggregate to failure. -/
theorem c5_overall_status_characterization_w :
    getPrOverallStatus [failedCheck, runningCheck] = CIStatus.failure :=
  (c5_overall_status_characterization [failedCheck, runningCheck]).2 failedCheck
    (List.Mem.head _) (by decide)

/-- Pricing components are never negative. -/
theorem pricingFor_nonneg (model : String) :
    0 ≤ (pricingFor model).1 ∧ 0 ≤ (pricingFor model).2 := by
  unfold pricingFor
  split_ifs <;> constructor <;> norm_num

/-- A call's cost is never negative. -/
theorem usageCost_nonneg (model : String) (i o : Nat) :
    0 ≤ usageCost model i o := by
  obtain ⟨h1, h2⟩ := pricingFor_nonneg model
  unfold usageCost
  have hi : (0 : ℚ) ≤ (i : ℚ) / 1000000 := by positivity
  have ho : (0 : ℚ) ≤ (o : ℚ) / 1000000 := by positivity
  exact add_nonneg (mul_nonneg hi h1) (mul_nonneg ho h2)

/-- Appending a row of the current date adds its cost to the day's total. -/
theorem getTodayCost_append (today : String) (rows : List UsageRow)
    (row : UsageRow) (h : row.date = today) :
    getTodayCost today (rows ++ [row]) = getTodayCost today rows + row.cost := by
  simp [getTodayCost, List.filter_append, h]

/-- Running the recorder over a day's calls produces exactly the flags of the
running totals compared against 80 percent of the limit. -/
theorem dayWarningsAux_eq (limit : ℚ) (today : String) (calls : List UsageCall) :
    ∀ rows : List UsageRow,
      dayWarningsAux limit today rows calls =
        (prefixTotals (getTodayCost today rows) calls).map
          (fun t => decide (t > limit * (8 / 10))) := by
  induction calls with
  | nil => intro rows; rfl
  | cons c rest ih =>
    intro rows
    simp only [dayWarningsAux, recordUsage, prefixTotals, List.map_cons]
    rw [ih]
    simp [getTodayCost_append]

/-- Every running total dominates the starting total. -/
theorem prefixTotals_ge (calls : List UsageCall) :
    ∀ acc : ℚ, ∀ x ∈ prefixTotals acc calls, acc ≤ x := by
  induction calls with
  | nil => intro acc x hx; simp [prefixTotals] at hx
  | cons c rest ih =>
    intro acc x hx
    simp only [prefixTotals, List.mem_cons] at hx
    have hc := usageCost_nonneg c.model c.inputTokens c.outputTokens
    rcases hx with rfl | hx
    · linarith
    · have := ih (acc + usageCost c.model c.inputTokens c.outputTokens) x hx
      linarith

/-- Running totals are non-decreasing. -/
theorem prefixTotals_pairwise (calls : List UsageCall) :
    ∀ acc : ℚ, List.Pairwise (fun a b : ℚ => a ≤ b) (prefixTotals acc calls) := by
  induction calls with
  | nil => intro acc; simp [prefixTotals]
  | cons c rest ih =>
    intro acc
    simp only [prefixTotals]
    exact List.Pairwise.cons (prefixTotals_ge rest _) (ih _)

/-- C6: the claim states the warning fires exactly once, on the first call
reaching 80 percent, equality included.  Counterexample with a daily limit of
7.50: the first call lands exactly on 80 percent and does not warn, while the
second and the third calls both warn. -/
theorem c6_warning_counterexample :
    dayWarnings (15 / 2) "2026-02-03"
        [callSixDollars, callThreeDollars, callThreeDollars] = [false, true, true] ∧
    usageCost callSixDollars.model callSixDollars.inputTokens callSixDollars.outputTokens =
      (15 / 2) * (8 / 10) := by
  have hcost6 : usageCost "claude-sonnet-4-20250514" 2000000 0 = 6 := by
    unfold usageCost
    rw [show pricingFor "claude-sonnet-4-20250514" = ((3 : ℚ), (15 : ℚ)) from rfl]
    norm_num
  have hcost3 : usageCost "claude-sonnet-4-20250514" 1000000 0 = 3 := by
    unfold usageCost
    rw [show pricingFor "claude-sonnet-4-20250514" = ((3 : ℚ), (15 : ℚ)) from rfl]
    norm_num
  constructor
  · unfold dayWarnings
    rw [dayWarningsAux_eq]
    have h0 : getTodayCost "2026-02-03" ([] : List UsageRow) = 0 := rfl
    have hp : prefixTotals (0 : ℚ) [callSixDollars, callThreeDollars, callThreeDollars] =
        [6, 9, 12] := by
      simp only [prefixTotals, callSixDollars, callThreeDollars, hcost6, hcost3]
      norm_num
    rw [h0, hp]
    have w1 : decide ((6 : ℚ) > (15 / 2) * (8 / 10)) = false := by
      apply decide_eq_false
      norm_num
    have w2 : decide ((9 : ℚ) > (15 / 2) * (8 / 10)) = true := by
      apply decide_eq_true
      norm_num
    have w3 : decide ((12 : ℚ) > (15 / 2) * (8 / 10)) = true := by
      apply decide_eq_true
      norm_num
    simp only [List.map_cons, List.map_nil, w1, w2, w3]
  · show usageCost "claude-sonnet-4-20250514" 2000000 0 = (15 / 2) * (8 / 10)
    rw [hcost6]
    norm_num

/-- C6 (amended): record_usage sends the warning on every call of the day
after which the cumulative spend strictly exceeds 80 percent of the daily
limit: the flags are exactly the running totals compared against the
threshold, there is no once-only latch, and since costs are non-negative the
flags are monotone, so every call after the first warning warns again. -/
theorem c6_warning_every_call_above_threshold (limit : ℚ) (today : String)
    (calls : List UsageCall) :
    dayWarnings limit today calls =
      (prefixTotals 0 calls).map (fun t => decide (t > limit * (8 / 10))) ∧
    List.Pairwise (fun a b : Bool => a = true → b = true)
      (dayWarnings limit today calls) := by
  have h1 : dayWarnings limit today calls =
      (prefixTotals 0 calls).map (fun t => decide (t > limit * (8 / 10))) := by
    unfold dayWarnings
    rw [dayWarningsAux_eq]
    rfl
  refine ⟨h1, ?_⟩
  rw [h1, List.pairwise_map]
  apply (prefixTotals_pairwise calls 0).imp
  intro a b hab h
  simp only [decide_eq_true_eq] at h ⊢
  linarith

/-- Steps with no edit_file action drive the implementation loop to overall
failure. -/
theorem implementGo_no_edit (steps : List StrategyStep) :
    ∀ (fs : List (String × PyStr)) (succ : Nat) (fm : List (Option String)),
      (∀ s ∈ steps, s.action ≠ some "edit_file") →
        implementGo fs 0 succ fm steps = false := by
  induction steps with
  | nil =>
    intro fs succ fm _
    simp [implementGo]
  | cons s rest ih =>
    intro fs succ fm h
    have hs := h s (List.Mem.head _)
    have hrest : ∀ x ∈ rest, x.action ≠ some "edit_file" :=
      fun x hx => h x (List.Mem.tail _ hx)
    unfold implementGo
    rw [if_neg hs]
    by_cases ha : s.action = some "add_test"
    · simp [ha, ih _ succ _ hrest]
    · simp [ha, ih _ succ _ hrest]

/-- C8: a parsed strategy whose steps contain no edit_file action is rejected
by create_strategy, and the implement stage returns failure on such steps. -/
theorem c8_no_edit_steps_rejected (data : StrategyData) (issueCategory : String)
    (fs : List (String × PyStr))
    (h : ∀ s ∈ data.steps, s.action ≠ some "edit_file") :
    createStrategy data issueCategory = none ∧ implementFix fs data.steps = false := by
  constructor
  · unfold createStrategy
    have hnil : data.steps.filter (fun s => s.action = some "edit_file") = [] :=
      List.filter_eq_nil.mpr (fun s hs => by simp [h s hs])
    simp [hnil]
  · exact implementGo_no_edit data.steps fs 0 [] h

/-- C8 witness: a strategy holding only an add_test step is rejected and its
implementation fails. -/
theorem c8_no_edit_steps_rejected_w :
    createStrategy dataAddTestEx "ux" = none ∧ implementFix [] dataAddTestEx.steps = false :=
  c8_no_edit_steps_rejected dataAddTestEx "ux" [] (by decide)

/-- infer_category always lands in the category enumeration. -/
theorem inferCategory_mem (t d s : String) :
    inferCategory t d s ∈ ["security", "performance", "accessibility", "ux", "bug"] := by
  unfold inferCategory
  dsimp only
  split_ifs <;> simp

/-- C9: the claim states severity and category are coerced into their
enumerations.  Counterexample: an embed with Severity BANANA parses to an
issue whose severity is banana, outside the enumeration, showing severity is
lowered but not coerced. -/
theorem c9_severity_counterexample :
    (parseDiscordEmbed embedEx).map Issue.severity = some "banana" ∧
    "banana" ∉ ["low", "medium", "high", "critical"] := by
  decide

/-- C9 (amended): every parsed issue's category is from the enumeration (the
default being bug); severity is lowered with default medium but passed
through unvalidated. -/
theorem c9_category_enumeration (embed : EmbedDict) (issue : Issue)
    (h : parseDiscordEmbed embed = some issue) :
    issue.category ∈ ["security", "performance", "accessibility", "ux", "bug"] := by
  unfold parseDiscordEmbed at h
  rcases hf : fieldsAssoc embed.fields with _ | fdict
  · rw [hf] at h
    simp at h
  · rw [hf] at h
    dsimp only at h
    injection h with h2
    subst h2
    exact inferCategory_mem (embed.title.getD "Unknown Issue") (embed.description.getD "")
      (String.mk (toLowerL (lookupFieldD fdict "Severity" "medium").data))

/-- C9 witness: the category of the parsed example embed is in the
enumeration. -/
theorem c9_category_enumeration_w :
    issueExC9.category ∈ ["security", "performance", "accessibility", "ux", "bug"] :=
  c9_category_enumeration embedEx issueExC9 (by decide)

/-- C10: with no Notifier attached the approval request auto-approves, the
approval gate always proceeds to implementing, and a strategy whose approval
is forced by a security, authentication or database category still proceeds
without any human sign-off, never reaching blocked. -/
theorem c10_no_bot_auto_approves (attempt : Nat) (strategy : FixStrategy)
    (data : StrategyData) (cat : String) (st : FixStrategy) :
    requestApproval none strategy.description = true ∧
    approvalGate none attempt strategy = FixStatus.implementing ∧
    (cat ∈ REQUIRE_APPROVAL_FOR → createStrategy data cat = some st →
      st.requiresApproval = true ∧ approvalGate none 1 st = FixStatus.implementing) := by
  refine ⟨rfl, ?_, ?_⟩
  · unfold approvalGate
    split <;> simp [requestApproval]
  · intro hcat hcs
    unfold createStrategy at hcs
    by_cases he : (data.steps.filter (fun s => s.action = some "edit_file")).isEmpty = true
    · simp [he] at hcs
    · simp only [he, Bool.false_eq_true, if_false, Option.some.injEq] at hcs
      subst hcs
      refine ⟨by simp [hcat], ?_⟩
      unfold approvalGate
      simp [requestApproval, hcat]

/-- C10 witness: the gate evaluated with no bot on a strategy requiring
approval and on the security-forced strategy built from one edit step. -/
theorem c10_no_bot_auto_approves_w :
    requestApproval none stratEx.description = true ∧
    approvalGate none 1 stratEx = FixStatus.implementing ∧
    stratSec.requiresApproval = true ∧
    approvalGate none 1 stratSec = FixStatus.implementing := by
  obtain ⟨h1, h2, h3⟩ := c10_no_bot_auto_approves 1 stratEx dataEditEx "security" stratSec
  obtain ⟨h4, h5⟩ := h3 (by decide) (by decide)
  exact ⟨h1, h2, h4, h5⟩
